import Mathlib

/-!
Verification of the FillYaTank fuel-price alert core: the phase classifier
and transition rule of `src/main.py`, the capability-token scheme and the
subscription handlers of `src/api/handlers.py`, and the signup flow of
`src/signup.py`.  Persisted JSON maps are modelled by explicit state
passing; the scheduled run is modelled as the list of its observable
events in execution order.
-/

namespace FillYaTank

/-! ### Python string primitives (model of `str.lower`, `str.strip`, `in`) -/

/-- Code points removed by Python `str.strip()` (Unicode whitespace). -/
def pySpaceCodes : List Nat :=
  [9, 10, 11, 12, 13, 28, 29, 30, 31, 32, 133, 160, 5760,
   8192, 8193, 8194, 8195, 8196, 8197, 8198, 8199, 8200, 8201, 8202,
   8232, 8233, 8239, 8287, 12288]

/-- Is `c` whitespace in the sense of Python `str.strip()`? -/
def isPySpace (c : Char) : Bool := pySpaceCodes.contains c.toNat

/-- Python `s.lower()`; `Char.toLower` matches Python on the ASCII range,
which is all the repository ever feeds it. -/
def pyLower (s : String) : String := ⟨s.data.map Char.toLower⟩

/-- Strip leading and trailing whitespace from a character list. -/
def stripL (l : List Char) : List Char :=
  ((l.dropWhile isPySpace).reverse.dropWhile isPySpace).reverse

/-- Python `s.strip()`. -/
def pyStrip (s : String) : String := ⟨stripL s.data⟩

/-- Python `s.lower().strip()`, the normalization applied to emails and
cities throughout the repository. -/
def pyNorm (s : String) : String := pyStrip (pyLower s)

/-- Is the first list a prefix of the second (by `==` on characters)? -/
def isPreL : List Char → List Char → Bool
  | [], _ => true
  | _ :: _, [] => false
  | a :: as, b :: bs => a == b && isPreL as bs

/-- Does the needle occur as a contiguous sublist of the haystack? -/
def isSubL (needle : List Char) : List Char → Bool
  | [] => needle.isEmpty
  | c :: t => isPreL needle (c :: t) || isSubL needle t

/-- Python `needle in hay` on strings (substring occurrence). -/
def strContains (hay needle : String) : Bool := isSubL needle.data hay.data

/-! ### Phase classifier (`classify_phase`, src/main.py lines 112-150) -/

/-- WAIT-signal phrases, as listed in `classify_phase` (src/main.py). -/
def wait_phrases : List String :=
  ["decreasing", "may decrease", "shop around", "high point",
   "increasing", "around a high"]

/-- BUY-signal phrases, as listed in `classify_phase` (src/main.py). -/
def buy_phrases : List String :=
  ["lowest point", "good time to buy", "now is a good time",
   "around the lowest", "at the lowest"]

/-- `classify_phase` from src/main.py: lower-case the tip text, return
`"WAIT"` on any WAIT-phrase substring match, else `"BUY"` on any
BUY-phrase substring match, else `"WAIT"`. -/
def classify_phase (tip_text : String) : String :=
  let text := pyLower tip_text
  if wait_phrases.any (fun p => strContains text p) then "WAIT"
  else if buy_phrases.any (fun p => strContains text p) then "BUY"
  else "WAIT"

/-- Classifier shape described by claim C1 and spec section 4.1,
parametrized by the two phrase lists: WAIT on a case-insensitive
substring match of a WAIT phrase, otherwise BUY on a BUY-phrase match,
otherwise WAIT. -/
def classifySpec (waitP buyP : List String) (t : String) : String :=
  if waitP.any (fun p => strContains (pyLower t) p) then "WAIT"
  else if buyP.any (fun p => strContains (pyLower t) p) then "BUY"
  else "WAIT"

/-- The WAIT-phrase list exactly as claim C1 words it ("prices
decreasing", "may decrease further", ...). -/
def claimC1WaitPhrases : List String :=
  ["prices decreasing", "may decrease further", "shop around",
   "high point", "increasing", "around a high"]

/-! ### SHA-256 (model of `hashlib.sha256`, bytes as `Nat` below 256,
words as `Nat` below 2 ^ 32) -/

/-- Addition modulo 2 ^ 32. -/
def add32 (a b : Nat) : Nat := (a + b) % 4294967296

/-- Right rotation of a 32-bit word by `n` places. -/
def rotr (n x : Nat) : Nat := x / 2 ^ n + x % 2 ^ n * 2 ^ (32 - n)

/-- Logical right shift of a 32-bit word by `n` places. -/
def shr (n x : Nat) : Nat := x / 2 ^ n

/-- Bitwise complement on 32 bits. -/
def not32 (x : Nat) : Nat := Nat.xor x 4294967295

/-- SHA-256 round constants (FIPS 180-4, written in decimal). -/
def sha256K : List Nat :=
  [1116352408, 1899447441, 3049323471, 3921009573, 961987163, 1508970993,
   2453635748, 2870763221, 3624381080, 310598401, 607225278, 1426881987,
   1925078388, 2162078206, 2614888103, 3248222580, 3835390401, 4022224774,
   264347078, 604807628, 770255983, 1249150122, 1555081692, 1996064986,
   2554220882, 2821834349, 2952996808, 3210313671, 3336571891, 3584528711,
   113926993, 338241895, 666307205, 773529912, 1294757372, 1396182291,
   1695183700, 1986661051, 2177026350, 2456956037, 2730485921, 2820302411,
   3259730800, 3345764771, 3516065817, 3600352804, 4094571909, 275423344,
   430227734, 506948616, 659060556, 883997877, 958139571, 1322822218,
   1537002063, 1747873779, 1955562222, 2024104815, 2227730452, 2361852424,
   2428436474, 2756734187, 3204031479, 3329325298]

/-- The eight-word SHA-256 working state. -/
structure Hash8 where
  a : Nat
  b : Nat
  c : Nat
  d : Nat
  e : Nat
  f : Nat
  g : Nat
  h : Nat
deriving DecidableEq

/-- SHA-256 initial hash value (FIPS 180-4, written in decimal). -/
def sha256H0 : Hash8 :=
  ⟨1779033703, 3144134277, 1013904242, 2773480762,
   1359893119, 2600822924, 528734635, 1541459225⟩

/-- Big sigma 0. -/
def bSig0 (x : Nat) : Nat := Nat.xor (Nat.xor (rotr 2 x) (rotr 13 x)) (rotr 22 x)

/-- Big sigma 1. -/
def bSig1 (x : Nat) : Nat := Nat.xor (Nat.xor (rotr 6 x) (rotr 11 x)) (rotr 25 x)

/-- Small sigma 0. -/
def sSig0 (x : Nat) : Nat := Nat.xor (Nat.xor (rotr 7 x) (rotr 18 x)) (shr 3 x)

/-- Small sigma 1. -/
def sSig1 (x : Nat) : Nat := Nat.xor (Nat.xor (rotr 17 x) (rotr 19 x)) (shr 10 x)

/-- Choice function. -/
def ch (x y z : Nat) : Nat := Nat.xor (Nat.land x y) (Nat.land (not32 x) z)

/-- Majority function. -/
def maj (x y z : Nat) : Nat :=
  Nat.xor (Nat.xor (Nat.land x y) (Nat.land x z)) (Nat.land y z)

/-- Next word of the message schedule, computed from the tail of the
words produced so far. -/
def nextW (ws : List Nat) : Nat :=
  let n := ws.length
  add32 (add32 (sSig1 (ws.getD (n - 2) 0)) (ws.getD (n - 7) 0))
        (add32 (sSig0 (ws.getD (n - 15) 0)) (ws.getD (n - 16) 0))

/-- Extend the 16-word schedule by `k` further words. -/
def extendW : Nat → List Nat → List Nat
  | 0, ws => ws
  | Nat.succ k, ws => extendW k (ws ++ [nextW ws])

/-- One SHA-256 round on the working state, given `k[i] + w[i]` mod 2^32. -/
def sha256Round (s : Hash8) (kw : Nat) : Hash8 :=
  let t1 := add32 s.h (add32 (bSig1 s.e) (add32 (ch s.e s.f s.g) kw))
  let t2 := add32 (bSig0 s.a) (maj s.a s.b s.c)
  ⟨add32 t1 t2, s.a, s.b, s.c, add32 s.d t1, s.e, s.f, s.g⟩

/-- Big-endian decoding of four bytes into one word. -/
def word4 : List Nat → Nat
  | b0 :: b1 :: b2 :: b3 :: _ => ((b0 * 256 + b1) * 256 + b2) * 256 + b3
  | _ => 0

/-- Split a byte list into the sixteen big-endian words of one block. -/
def blockWords (block : List Nat) : List Nat :=
  (List.range 16).map (fun i => word4 (block.drop (4 * i)))

/-- Compress one 64-byte block into the running hash state. -/
def sha256Block (s : Hash8) (block : List Nat) : Hash8 :=
  let ws := extendW 48 (blockWords block)
  let s1 := (List.zipWith add32 sha256K ws).foldl sha256Round s
  ⟨add32 s.a s1.a, add32 s.b s1.b, add32 s.c s1.c, add32 s.d s1.d,
   add32 s.e s1.e, add32 s.f s1.f, add32 s.g s1.g, add32 s.h s1.h⟩

/-- Big-endian encoding of `n` into 8 bytes. -/
def be64 (n : Nat) : List Nat :=
  [n / 2 ^ 56 % 256, n / 2 ^ 48 % 256, n / 2 ^ 40 % 256, n / 2 ^ 32 % 256,
   n / 2 ^ 24 % 256, n / 2 ^ 16 % 256, n / 2 ^ 8 % 256, n % 256]

/-- SHA-256 padding: append `0x80`, zeros to 56 mod 64, and the bit
length in 8 big-endian bytes. -/
def sha256Pad (msg : List Nat) : List Nat :=
  msg ++ [128] ++ List.replicate ((119 - msg.length % 64) % 64) 0
      ++ be64 (8 * msg.length)

/-- Split a list into chunks of 64 elements; `fuel` bounds the number of
chunks and is always called with at least the list length. -/
def chunksAux : Nat → List Nat → List (List Nat)
  | _, [] => []
  | Nat.succ k, x :: xs => (x :: xs).take 64 :: chunksAux k ((x :: xs).drop 64)
  | 0, _ :: _ => []

/-- Split a list into chunks of 64 elements. -/
def chunks64 (l : List Nat) : List (List Nat) := chunksAux l.length l

/-- Big-endian encoding of one word into 4 bytes. -/
def be32 (n : Nat) : List Nat :=
  [n / 2 ^ 24 % 256, n / 2 ^ 16 % 256, n / 2 ^ 8 % 256, n % 256]

/-- SHA-256 digest of a byte list, as a list of 32 bytes. -/
def sha256 (msg : List Nat) : List Nat :=
  let s := (chunks64 (sha256Pad msg)).foldl sha256Block sha256H0
  be32 s.a ++ be32 s.b ++ be32 s.c ++ be32 s.d ++
  be32 s.e ++ be32 s.f ++ be32 s.g ++ be32 s.h

/-! ### UTF-8 and URL-safe base64 (models of `str.encode` and
`base64.urlsafe_b64encode`) -/

/-- UTF-8 encoding of one character, as bytes. -/
def utf8Char (c : Char) : List Nat :=
  let n := c.toNat
  if n < 128 then [n]
  else if n < 2048 then [192 + n / 64, 128 + n % 64]
  else if n < 65536 then [224 + n / 4096, 128 + n / 64 % 64, 128 + n % 64]
  else [240 + n / 262144, 128 + n / 4096 % 64, 128 + n / 64 % 64, 128 + n % 64]

/-- UTF-8 encoding of a string, as bytes. -/
def utf8Encode (s : String) : List Nat := (s.data.map utf8Char).flatten

/-- The URL-safe base64 alphabet used by `base64.urlsafe_b64encode`. -/
def b64Alphabet : List Char :=
  "ABCDEFGHIJKLMNOPQRSTUVWXYZabcdefghijklmnopqrstuvwxyz0123456789-_".data

/-- Character for one 6-bit value. -/
def b64Char (n : Nat) : Char := b64Alphabet.getD n 'A'

/-- URL-safe base64 encoding of a byte list, with `=` padding. -/
def b64url : List Nat → List Char
  | [] => []
  | [b0] => [b64Char (b0 / 4), b64Char (b0 % 4 * 16), '=', '=']
  | [b0, b1] =>
      [b64Char (b0 / 4), b64Char (b0 % 4 * 16 + b1 / 16),
       b64Char (b1 % 16 * 4), '=']
  | b0 :: b1 :: b2 :: rest =>
      b64Char (b0 / 4) :: b64Char (b0 % 4 * 16 + b1 / 16) ::
      b64Char (b1 % 16 * 4 + b2 / 64) :: b64Char (b2 % 64) :: b64url rest

/-- Python `s.rstrip("=")`. -/
def rstripEq (l : List Char) : List Char :=
  (l.reverse.dropWhile (fun c => c == '=')).reverse

/-! ### Capability tokens (`generate_token` / `verify_token`, identical in
src/api/handlers.py, src/signup.py and src/main.py).  The shared secret
`SECRET_KEY` is read from the environment; it is passed here as an
explicit first argument. -/

/-- Default of the `SECRET_KEY` environment variable. -/
def defaultSecret : String := "change-this-in-production"

/-- `generate_token`: SHA-256 of `email|city|action|secret`, truncated to
16 bytes and base64-url encoded without padding. -/
def generate_token (secret email city action : String) : String :=
  ⟨rstripEq (b64url ((sha256 (utf8Encode
      (email ++ "|" ++ city ++ "|" ++ action ++ "|" ++ secret))).take 16))⟩

/-- `verify_token`: recompute the expected token and compare. -/
def verify_token (secret email city token action : String) : Bool :=
  token == generate_token secret email city action

/-! ### Transition rule (inlined in `main`, src/main.py line 301) -/

/-- The WAIT to BUY edge test: the condition under which `main` appends a
city to its `transitions` list (src/main.py line 301). -/
def shouldAlert (prev phase : String) : Bool :=
  prev == "WAIT" && phase == "BUY"

/-! ### Python dict model (string-keyed association lists, unique keys,
insertion order preserved as in Python dicts) -/

/-- Python `d.get(k, dflt)`. -/
def lookupD {α : Type} (d : List (String × α)) (k : String) (dflt : α) : α :=
  match d.find? (fun kv => kv.1 == k) with
  | some kv => kv.2
  | none => dflt

/-- Python `k in d` on dicts. -/
def hasKey {α : Type} (d : List (String × α)) (k : String) : Bool :=
  d.any (fun kv => kv.1 == k)

/-- Python `d[k] = v`: replace in place if the key exists, else append. -/
def setKey {α : Type} (d : List (String × α)) (k : String) (v : α) :
    List (String × α) :=
  match d with
  | [] => [(k, v)]
  | kv :: rest => if kv.1 == k then (k, v) :: rest else kv :: setKey rest k v

/-- The subscriber registry: city name to list of email addresses, the
shape of `subscribers.json`. -/
abbrev Registry := List (String × List String)

/-! ### Subscription handlers (src/api/handlers.py).  The persisted
registry is passed in and returned explicitly; the final `Bool` records
whether `save_subscribers` was called. -/

/-- The fixed city set of src/main.py, src/signup.py and
src/api/handlers.py. -/
def CITIES : List String :=
  ["sydney", "melbourne", "brisbane", "adelaide", "perth"]

/-- `confirm_subscription` from src/api/handlers.py: normalize, validate
city, verify the `confirm` token, then add the email unless present. -/
def confirm_subscription (secret email city token : String)
    (subs : Registry) : (Bool × String) × Registry × Bool :=
  let email := pyNorm email
  let city := pyNorm city
  if !(CITIES.contains city) then ((false, "Invalid city"), subs, false)
  else if !(verify_token secret email city token "confirm") then
    ((false, "Invalid or expired confirmation link"), subs, false)
  else if (lookupD subs city []).contains email then
    ((true, "You\x27re already subscribed"), subs, false)
  else
    let subs1 := if hasKey subs city then subs else setKey subs city []
    let subs2 := setKey subs1 city (lookupD subs1 city [] ++ [email])
    ((true, "You\x27re subscribed! You\x27ll only hear from us when prices hit bottom."),
     subs2, true)

/-- `unsubscribe` from src/api/handlers.py: normalize, validate city,
verify the `unsubscribe` token, then remove the email if present. -/
def unsubscribe (secret email city token : String) (subs : Registry) :
    (Bool × String) × Registry × Bool :=
  let email := pyNorm email
  let city := pyNorm city
  if !(CITIES.contains city) then ((false, "Invalid city"), subs, false)
  else if !(verify_token secret email city token "unsubscribe") then
    ((false, "Invalid unsubscribe link"), subs, false)
  else if hasKey subs city && (lookupD subs city []).contains email then
    ((true, "You\x27ve been unsubscribed"),
     setKey subs city ((lookupD subs city []).erase email), true)
  else ((true, "You weren\x27t subscribed"), subs, false)

/-! ### Signup flow (src/signup.py) -/

/-- Characters allowed in the local part by the email regex of
`is_valid_email`: `[a-zA-Z0-9._%+-]`. -/
def localChar (c : Char) : Bool :=
  c.isAlpha || c.isDigit || c == '.' || c == '_' || c == '%' || c == '+' ||
  c == '-'

/-- Characters allowed in the domain part: `[a-zA-Z0-9.-]`. -/
def domChar (c : Char) : Bool :=
  c.isAlpha || c.isDigit || c == '.' || c == '-'

/-- Does the part after `@` match `[a-zA-Z0-9.-]+\.[a-zA-Z]{2,}`,
anchored at the end?  The dot may be chosen anywhere, matching regex
backtracking. -/
def domMatch (rest : List Char) : Bool :=
  (List.range rest.length).any fun i =>
    rest.getD i ' ' == '.' && !(i == 0) && (rest.take i).all domChar &&
    decide (2 ≤ (rest.drop (i + 1)).length) &&
    (rest.drop (i + 1)).all Char.isAlpha

/-- Does the whole character list match the anchored email regex of
src/signup.py?  The local part is forced to be the maximal run of local
characters since `@` is not a local character. -/
def emailMatch (l : List Char) : Bool :=
  let loc := l.takeWhile localChar
  match l.drop loc.length with
  | '@' :: rest => !loc.isEmpty && domMatch rest
  | _ => false

/-- `is_valid_email` from src/signup.py: the regex must match (Python
`re`: `$` also matches just before one final newline) and the length must
be at most 254. -/
def is_valid_email (email : String) : Bool :=
  (emailMatch email.data ||
   (email.data.getLast? == some '\n' && emailMatch email.data.dropLast)) &&
  decide (email.length ≤ 254)

/-- `process_signup` from src/signup.py: normalize, validate email and
city, reject if already subscribed, else issue a `confirm` token and hand
(email, city, token) to the confirmation-email sender, whose outcome is
the oracle `sendOk`.  The second component records the issuance. -/
def process_signup (secret : String) (sendOk : String → String → Bool)
    (email city : String) (subs : Registry) :
    (Bool × String) × Option (String × String × String) :=
  let email := pyNorm email
  let city := pyNorm city
  if !(is_valid_email email) then ((false, "Invalid email address"), none)
  else if !(CITIES.contains city) then
    ((false, "Invalid city. Choose from: sydney, melbourne, brisbane, adelaide, perth"),
     none)
  else if (lookupD subs city []).contains email then
    ((false, "This email is already subscribed"), none)
  else
    let token := generate_token secret email city "confirm"
    if sendOk email city then
      ((true, "Check your inbox to confirm"), some (email, city, token))
    else ((false, "Failed to send confirmation email"), some (email, city, token))

/-! ### The scheduled run (`main`, src/main.py lines 284-334), modelled
as its list of observable events: the `save_state` call and the
per-subscriber `send_buy_alert` calls, in execution order.  `sendOk` is
the send-outcome oracle; `main` ignores it. -/

/-- An observable event of one scheduled run. -/
inductive RunEvent where
  | saveState : List (String × String) → RunEvent
  | sendAlert : String → String → Bool → RunEvent
deriving DecidableEq

/-- The `current_state` dict built by the per-city loop. -/
def currentStateOf (tips : List (String × String)) : List (String × String) :=
  CITIES.map (fun city => (city, classify_phase (lookupD tips city "")))

/-- The `transitions` list built by the per-city loop: cities whose
previous phase (default `"UNKNOWN"`) was `WAIT` and current phase is
`BUY`. -/
def transitionsOf (prev tips : List (String × String)) : List String :=
  CITIES.filter (fun city =>
    shouldAlert (lookupD prev city "UNKNOWN")
      (classify_phase (lookupD tips city "")))

/-- The alert-dispatch loop: one send per subscriber of each transitioned
city, in order. -/
def dispatchEvents (sendOk : String → String → Bool) (subs : Registry)
    (transitions : List String) : List RunEvent :=
  (transitions.map (fun city =>
    (lookupD subs city []).map (fun email =>
      RunEvent.sendAlert email city (sendOk email city)))).flatten

/-- The event trace of one scheduled run after classification:
`save_state(current_state)` (line 318) followed by alert dispatch
(lines 321-334). -/
def mainEvents (sendOk : String → String → Bool)
    (tips prev : List (String × String)) (subs : Registry) : List RunEvent :=
  RunEvent.saveState (currentStateOf tips) ::
    dispatchEvents sendOk subs (transitionsOf prev tips)

/-- Is the event a `send_buy_alert` call? -/
def isSend : RunEvent → Bool
  | .sendAlert _ _ _ => true
  | _ => false

/-- Is the event a `save_state` call? -/
def isSave : RunEvent → Bool
  | .saveState _ => true
  | _ => false

/-- Claim C3's ordering: every send event strictly precedes every
`save_state` event (state persisted only after dispatch completes). -/
def persistedAfterDispatch (evts : List RunEvent) : Bool :=
  (List.range evts.length).all fun i =>
    (List.range evts.length).all fun j =>
      !(isSend (evts.getD i (.saveState [])) &&
        isSave (evts.getD j (.saveState []))) || decide (i < j)

/-! ### Normalization invariant (claim C9) -/

/-- Is the string fixed by `s.lower().strip()`? -/
def normChk (s : String) : Bool := pyNorm s == s

/-- Does the registry contain only lower-cased, trimmed addresses? -/
def registryNormalized (subs : Registry) : Bool :=
  subs.all (fun kv => kv.2.all normChk)

/-- Left trim (leading whitespace). -/
def trimL (l : List Char) : List Char := l.dropWhile isPySpace

/-- Right trim (trailing whitespace). -/
def trimR (l : List Char) : List Char :=
  (l.reverse.dropWhile isPySpace).reverse

/-! ## Helper lemmas -/

theorem char_toNat_ofNat {n : Nat} (h : n.isValidChar) :
    (Char.ofNat n).toNat = n := by
  rw [Char.ofNat, dif_pos h]
  rfl

theorem toLower_eq_self {c : Char} (h : ¬(c.toNat ≥ 65 ∧ c.toNat ≤ 90)) :
    Char.toLower c = c := by
  unfold Char.toLower
  exact if_neg h

theorem toLower_toNat_of_upper {c : Char} (h : c.toNat ≥ 65 ∧ c.toNat ≤ 90) :
    (Char.toLower c).toNat = c.toNat + 32 := by
  unfold Char.toLower
  rw [if_pos h]
  exact char_toNat_ofNat (Or.inl (by omega))

theorem toLower_idem (c : Char) :
    Char.toLower (Char.toLower c) = Char.toLower c := by
  by_cases h : c.toNat ≥ 65 ∧ c.toNat ≤ 90
  · have h1 := toLower_toNat_of_upper h
    exact toLower_eq_self (by omega)
  · rw [toLower_eq_self h]
    exact toLower_eq_self h

theorem pySpace_out_of_range {n : Nat} (h1 : 65 ≤ n) (h2 : n ≤ 122) :
    pySpaceCodes.contains n = false := by
  simp only [pySpaceCodes, List.contains_cons]
  simp only [List.contains_nil, Bool.or_false, Bool.or_eq_false_iff, beq_eq_false_iff_ne]
  omega

theorem isPySpace_toLower (c : Char) :
    isPySpace (Char.toLower c) = isPySpace c := by
  by_cases h : c.toNat ≥ 65 ∧ c.toNat ≤ 90
  · unfold isPySpace
    rw [toLower_toNat_of_upper h,
      pySpace_out_of_range (by omega) (by omega),
      pySpace_out_of_range (by omega) (by omega)]
  · rw [toLower_eq_self h]

theorem lowerL_idem (l : List Char) :
    (l.map Char.toLower).map Char.toLower = l.map Char.toLower := by
  rw [List.map_map]
  exact List.map_congr_left (fun a _ => toLower_idem a)

theorem dropWhile_dropWhile (p : Char → Bool) (l : List Char) :
    (l.dropWhile p).dropWhile p = l.dropWhile p := by
  induction l with
  | nil => rfl
  | cons x xs ih =>
    by_cases h : p x <;> simp [List.dropWhile_cons, h, ih]

theorem trimL_trimL (l : List Char) : trimL (trimL l) = trimL l :=
  dropWhile_dropWhile isPySpace l

theorem trimR_trimR (l : List Char) : trimR (trimR l) = trimR l := by
  unfold trimR
  rw [List.reverse_reverse, dropWhile_dropWhile]

theorem trimR_cons_of_neg {x : Char} {xs : List Char}
    (h : isPySpace x = false) : trimR (x :: xs) = x :: trimR xs := by
  unfold trimR
  rw [List.reverse_cons, List.dropWhile_append]
  split
  · next he =>
    rw [List.isEmpty_iff] at he
    simp [List.dropWhile_cons, h, he]
  · simp

theorem trimR_eq_nil_of_all {xs : List Char}
    (h : ∀ a ∈ xs, isPySpace a = true) : trimR xs = [] := by
  unfold trimR
  rw [List.dropWhile_eq_nil_iff.mpr (fun a ha => h a (List.mem_reverse.mp ha))]
  rfl

theorem trimL_trimR_comm (l : List Char) :
    trimL (trimR l) = trimR (trimL l) := by
  induction l with
  | nil => rfl
  | cons x xs ih =>
    by_cases h : isPySpace x
    · have hl : trimL (x :: xs) = trimL xs := by simp [trimL, List.dropWhile_cons, h]
      rw [hl, ← ih]
      unfold trimR
      rw [List.reverse_cons, List.dropWhile_append]
      split
      · next he =>
        rw [List.isEmpty_iff, List.dropWhile_eq_nil_iff] at he
        rw [List.dropWhile_cons_of_pos h, List.dropWhile_nil,
          List.dropWhile_eq_nil_iff.mpr he]
      · next he =>
        rw [List.reverse_append, List.reverse_singleton]
        show trimL (x :: (xs.reverse.dropWhile isPySpace).reverse) = _
        simp only [trimL, List.dropWhile_cons_of_pos h]
    · have hb : isPySpace x = false := by simpa using h
      rw [trimR_cons_of_neg hb]
      have hl1 : trimL (x :: trimR xs) = x :: trimR xs := by
        simp [trimL, List.dropWhile_cons, hb]
      have hl2 : trimL (x :: xs) = x :: xs := by
        simp [trimL, List.dropWhile_cons, hb]
      rw [hl1, hl2, trimR_cons_of_neg hb]

theorem stripL_eq_trim (l : List Char) : stripL l = trimR (trimL l) := rfl

theorem stripL_stripL (l : List Char) : stripL (stripL l) = stripL l := by
  rw [stripL_eq_trim, stripL_eq_trim, trimL_trimR_comm, trimR_trimR,
    trimL_trimL]

theorem isPySpace_comp_toLower :
    (isPySpace ∘ Char.toLower) = isPySpace :=
  funext fun a => isPySpace_toLower a

theorem trimL_map_toLower (l : List Char) :
    trimL (l.map Char.toLower) = (trimL l).map Char.toLower := by
  unfold trimL
  rw [List.dropWhile_map, isPySpace_comp_toLower]

theorem trimR_map_toLower (l : List Char) :
    trimR (l.map Char.toLower) = (trimR l).map Char.toLower := by
  unfold trimR
  rw [← List.map_reverse, List.dropWhile_map, isPySpace_comp_toLower,
    ← List.map_reverse]

theorem stripL_map_toLower (l : List Char) :
    stripL (l.map Char.toLower) = (stripL l).map Char.toLower := by
  rw [stripL_eq_trim, stripL_eq_trim, trimL_map_toLower, trimR_map_toLower]

theorem pyLower_idem (s : String) : pyLower (pyLower s) = pyLower s :=
  congrArg String.mk (lowerL_idem s.data)

theorem pyNorm_idem (s : String) : pyNorm (pyNorm s) = pyNorm s := by
  show (⟨stripL ((stripL (s.data.map Char.toLower)).map Char.toLower)⟩ : String)
      = ⟨stripL (s.data.map Char.toLower)⟩
  rw [← stripL_map_toLower, lowerL_idem, stripL_stripL]

theorem normChk_pyNorm (s : String) : normChk (pyNorm s) = true := by
  simp [normChk, pyNorm_idem]

theorem lookupD_setKey_self {α : Type} (d : List (String × α)) (k : String)
    (v : α) (dflt : α) : lookupD (setKey d k v) k dflt = v := by
  induction d with
  | nil => simp [setKey, lookupD, List.find?]
  | cons kv rest ih =>
    by_cases h : kv.1 == k
    · simp [setKey, h, lookupD, List.find?]
    · simp only [setKey, h, if_false, Bool.false_eq_true]
      simpa [lookupD, List.find?, h] using ih

theorem lookupD_of_hasKey_false {α : Type} {d : List (String × α)}
    {k : String} (h : hasKey d k = false) (dflt : α) :
    lookupD d k dflt = dflt := by
  induction d with
  | nil => rfl
  | cons kv rest ih =>
    simp only [hasKey, List.any_cons, Bool.or_eq_false_iff] at h
    simp only [lookupD, List.find?, h.1]
    exact ih (by simp [hasKey, h.2])

theorem registryNormalized_setKey {d : Registry} {k : String}
    {v : List String} (hd : registryNormalized d = true)
    (hv : v.all normChk = true) :
    registryNormalized (setKey d k v) = true := by
  induction d with
  | nil => simp [setKey, registryNormalized, hv]
  | cons kv rest ih =>
    simp only [registryNormalized, List.all_cons, Bool.and_eq_true] at hd
    by_cases h : kv.1 == k
    · simp [setKey, h, registryNormalized, hv, hd.2]
    · simp only [setKey, h, if_false, Bool.false_eq_true]
      have := ih hd.2
      simp only [registryNormalized, List.all_cons, Bool.and_eq_true] at this ⊢
      exact ⟨hd.1, this⟩

theorem registryNormalized_lookupD {d : Registry} {k : String}
    (hd : registryNormalized d = true) :
    (lookupD d k []).all normChk = true := by
  induction d with
  | nil => rfl
  | cons kv rest ih =>
    simp only [registryNormalized, List.all_cons, Bool.and_eq_true] at hd
    by_cases h : kv.1 == k
    · simpa [lookupD, List.find?, h] using hd.1
    · simp only [lookupD, List.find?, h]
      exact ih hd.2

theorem all_erase {l : List String} {a : String} (h : l.all normChk = true) :
    (l.erase a).all normChk = true := by
  rw [List.all_eq_true] at h ⊢
  exact fun x hx => h x (List.mem_of_mem_erase hx)

theorem classify_phase_eq_or (t : String) :
    classify_phase t = "WAIT" ∨ classify_phase t = "BUY" := by
  unfold classify_phase
  by_cases h1 : wait_phrases.any (fun p => strContains (pyLower t) p)
  · simp [h1]
  · by_cases h2 : buy_phrases.any (fun p => strContains (pyLower t) p) <;>
      simp [h1, h2]

/-! ## Claim theorems -/

/-- C1, counterexample: the claim lists "prices decreasing" and "may
decrease further" as the WAIT-signal phrases, but `classify_phase`
matches on the substrings "decreasing" and "may decrease".  On the text
"Decreasing lowest point" the claimed rule yields BUY (no claimed WAIT
phrase occurs, "lowest point" does), while the code returns WAIT. -/
theorem classify_phase_claimC1_counterexample :
    classify_phase "Decreasing lowest point" = "WAIT" ∧
    classifySpec claimC1WaitPhrases buy_phrases "Decreasing lowest point" =
      "BUY" :=
  ⟨by decide, by decide⟩

/-- C1 (amended): `classify_phase` is pure, deterministic and
case-insensitive, and returns WAIT if any of the WAIT-signal substrings
"decreasing", "may decrease", "shop around", "high point", "increasing",
"around a high" occurs in the text (WAIT signals take priority over BUY
signals); otherwise BUY if any BUY-signal phrase "lowest point", "good
time to buy", "now is a good time", "around the lowest", "at the lowest"
occurs; otherwise (including the empty string) WAIT.  It never returns
UNKNOWN. -/
theorem classify_phase_spec_amended (t : String) :
    classify_phase t = classifySpec wait_phrases buy_phrases t ∧
    classify_phase (pyLower t) = classify_phase t ∧
    (classify_phase t == "UNKNOWN") = false := by
  refine ⟨rfl, ?_, ?_⟩
  · simp only [classify_phase, pyLower_idem]
  · rcases classify_phase_eq_or t with h | h <;> simp [h]

/-- C2: the transition rule inlined in `main` fires exactly for
previous = WAIT and current = BUY; in particular not from UNKNOWN, not
on BUY to BUY, and never into WAIT. -/
theorem shouldAlert_spec (p c : String) :
    (shouldAlert p c = true ↔ p = "WAIT" ∧ c = "BUY") ∧
    shouldAlert "UNKNOWN" "BUY" = false ∧
    shouldAlert "BUY" "BUY" = false ∧
    (∀ x : String, shouldAlert x "WAIT" = false) := by
  refine ⟨?_, by decide, by decide, fun x => ?_⟩
  · unfold shouldAlert
    rw [Bool.and_eq_true, beq_iff_eq, beq_iff_eq]
  · simp [shouldAlert]

/-- C4: verifying a freshly issued token always succeeds when the same
shared secret is used for issuance and verification. -/
theorem verify_token_roundtrip (secret e c a : String) :
    verify_token secret e c (generate_token secret e c a) a = true := by
  simp [verify_token]

/-- C10: `generate_token` concatenates with an unescaped `|` separator,
so the distinct pairs (email "a|b", city "c") and (email "a", city
"b|c") hash the same data string and receive the identical token; a
token issued for the first pair verifies for the second. -/
theorem generate_token_separator_collision :
    (("a|b" : String) == "a") = false ∧
    generate_token defaultSecret "a|b" "c" "unsubscribe" =
      generate_token defaultSecret "a" "b|c" "unsubscribe" ∧
    verify_token defaultSecret "a" "b|c"
      (generate_token defaultSecret "a|b" "c" "unsubscribe")
      "unsubscribe" = true := by
  have hdata :
      ("a|b" ++ "|" ++ "c" ++ "|" ++ "unsubscribe" ++ "|" ++ defaultSecret :
        String) =
      "a" ++ "|" ++ "b|c" ++ "|" ++ "unsubscribe" ++ "|" ++ defaultSecret :=
    by decide
  have hg : generate_token defaultSecret "a|b" "c" "unsubscribe" =
      generate_token defaultSecret "a" "b|c" "unsubscribe" := by
    unfold generate_token
    rw [hdata]
  refine ⟨by decide, hg, ?_⟩
  unfold verify_token
  rw [hg]
  simp

/-- C3, counterexample: with a WAIT-to-BUY transition for sydney and one
sydney subscriber, the run trace is the `save_state` event FOLLOWED by
the alert send — the new state is persisted before dispatch, not after
it as the claim states. -/
theorem mainEvents_persist_counterexample :
    mainEvents (fun _ _ => true) [("sydney", "lowest point")]
        [("sydney", "WAIT")] [("sydney", ["user@example.com"])] =
      [RunEvent.saveState
         [("sydney", "BUY"), ("melbourne", "WAIT"), ("brisbane", "WAIT"),
          ("adelaide", "WAIT"), ("perth", "WAIT")],
       RunEvent.sendAlert "user@example.com" "sydney" true] ∧
    persistedAfterDispatch
      (mainEvents (fun _ _ => true) [("sydney", "lowest point")]
        [("sydney", "WAIT")] [("sydney", ["user@example.com"])]) = false :=
  ⟨by decide, by decide⟩

/-- C3 (amended): in every scheduled run the new state record computed
from the current classification is persisted unconditionally and BEFORE
alert dispatch: the trace always starts with the `save_state` event, and
everything after it is only send events, whatever the send outcomes. -/
theorem mainEvents_persist_first (sendOk : String → String → Bool)
    (tips prev : List (String × String)) (subs : Registry) :
    (mainEvents sendOk tips prev subs).head? =
      some (RunEvent.saveState (currentStateOf tips)) ∧
    (mainEvents sendOk tips prev subs).tail.all isSend = true := by
  refine ⟨rfl, ?_⟩
  simp only [mainEvents, List.tail_cons, dispatchEvents]
  rw [List.all_eq_true]
  intro x hx
  rw [List.mem_flatten] at hx
  obtain ⟨l, hl, hxl⟩ := hx
  rw [List.mem_map] at hl
  obtain ⟨city, _, rfl⟩ := hl
  rw [List.mem_map] at hxl
  obtain ⟨email, _, rfl⟩ := hxl
  rfl

/-- C6: if `confirm_subscription` or `unsubscribe` is called with a city
failing the (normalized) membership check, or with a token failing
verification for the respective action, it returns a failure result with
a non-empty message and the registry is returned unchanged with no save
performed. -/
theorem handlers_fail_no_mutation (secret email city token : String)
    (subs : Registry) :
    ((CITIES.contains (pyNorm city) = false ∨
      verify_token secret (pyNorm email) (pyNorm city) token "confirm" =
        false) →
      (confirm_subscription secret email city token subs).1.1 = false ∧
      (confirm_subscription secret email city token subs).1.2.isEmpty =
        false ∧
      (confirm_subscription secret email city token subs).2.1 = subs ∧
      (confirm_subscription secret email city token subs).2.2 = false) ∧
    ((CITIES.contains (pyNorm city) = false ∨
      verify_token secret (pyNorm email) (pyNorm city) token "unsubscribe" =
        false) →
      (unsubscribe secret email city token subs).1.1 = false ∧
      (unsubscribe secret email city token subs).1.2.isEmpty = false ∧
      (unsubscribe secret email city token subs).2.1 = subs ∧
      (unsubscribe secret email city token subs).2.2 = false) := by
  constructor
  · intro h
    rcases h with h | h
    · have hnc : pyNorm city ∉ CITIES := by simpa using h
      have h1 : confirm_subscription secret email city token subs =
          ((false, "Invalid city"), subs, false) := by
        simp [confirm_subscription, hnc]
      rw [h1]
      exact ⟨rfl, rfl, rfl, rfl⟩
    · by_cases hcity : CITIES.contains (pyNorm city) = true
      · have hyc : pyNorm city ∈ CITIES := by simpa using hcity
        have h1 : confirm_subscription secret email city token subs =
            ((false, "Invalid or expired confirmation link"), subs, false) := by
          simp [confirm_subscription, hyc, h]
        rw [h1]
        exact ⟨rfl, rfl, rfl, rfl⟩
      · have hnc : pyNorm city ∉ CITIES := by simpa using hcity
        have h1 : confirm_subscription secret email city token subs =
            ((false, "Invalid city"), subs, false) := by
          simp [confirm_subscription, hnc]
        rw [h1]
        exact ⟨rfl, rfl, rfl, rfl⟩
  · intro h
    rcases h with h | h
    · have hnc : pyNorm city ∉ CITIES := by simpa using h
      have h1 : unsubscribe secret email city token subs =
          ((false, "Invalid city"), subs, false) := by
        simp [unsubscribe, hnc]
      rw [h1]
      exact ⟨rfl, rfl, rfl, rfl⟩
    · by_cases hcity : CITIES.contains (pyNorm city) = true
      · have hyc : pyNorm city ∈ CITIES := by simpa using hcity
        have h1 : unsubscribe secret email city token subs =
            ((false, "Invalid unsubscribe link"), subs, false) := by
          simp [unsubscribe, hyc, h]
        rw [h1]
        exact ⟨rfl, rfl, rfl, rfl⟩
      · have hnc : pyNorm city ∉ CITIES := by simpa using hcity
        have h1 : unsubscribe secret email city token subs =
            ((false, "Invalid city"), subs, false) := by
          simp [unsubscribe, hnc]
        rw [h1]
        exact ⟨rfl, rfl, rfl, rfl⟩

/-- C6 witness: both operations at the unknown city "gotham". -/
theorem handlers_fail_no_mutation_witness :
    (confirm_subscription defaultSecret "User@Example.com" "gotham" "tok"
        [("sydney", ["a@b.co"])]).1.1 = false ∧
    (confirm_subscription defaultSecret "User@Example.com" "gotham" "tok"
        [("sydney", ["a@b.co"])]).2.1 = [("sydney", ["a@b.co"])] ∧
    (unsubscribe defaultSecret "User@Example.com" "gotham" "tok"
        [("sydney", ["a@b.co"])]).1.1 = false ∧
    (unsubscribe defaultSecret "User@Example.com" "gotham" "tok"
        [("sydney", ["a@b.co"])]).2.2 = false := by
  have h := handlers_fail_no_mutation defaultSecret "User@Example.com"
    "gotham" "tok" [("sydney", ["a@b.co"])]
  exact ⟨(h.1 (Or.inl (by decide))).1, (h.1 (Or.inl (by decide))).2.2.1,
    (h.2 (Or.inl (by decide))).1, (h.2 (Or.inl (by decide))).2.2.2⟩

/-- C7: with a known city, a valid confirm token and a registry already
holding the address at most once, confirming twice leaves exactly one
entry for the address under the city and the second call reports
"already subscribed". -/
theorem confirm_twice_idempotent (secret email city : String)
    (subs : Registry) (hc : CITIES.contains (pyNorm city) = true)
    (hcount :
      (lookupD subs (pyNorm city) []).count (pyNorm email) ≤ 1) :
    (lookupD (confirm_subscription secret email city
          (generate_token secret (pyNorm email) (pyNorm city) "confirm")
          (confirm_subscription secret email city
            (generate_token secret (pyNorm email) (pyNorm city) "confirm")
            subs).2.1).2.1
        (pyNorm city) []).count (pyNorm email) = 1 ∧
    (confirm_subscription secret email city
        (generate_token secret (pyNorm email) (pyNorm city) "confirm")
        (confirm_subscription secret email city
          (generate_token secret (pyNorm email) (pyNorm city) "confirm")
          subs).2.1).1 = (true, "You\x27re already subscribed") := by
  have hv := verify_token_roundtrip secret (pyNorm email) (pyNorm city)
    "confirm"
  have hyc : pyNorm city ∈ CITIES := by simpa using hc
  by_cases hm : pyNorm email ∈ lookupD subs (pyNorm city) []
  · have h1 : confirm_subscription secret email city
        (generate_token secret (pyNorm email) (pyNorm city) "confirm")
        subs = ((true, "You\x27re already subscribed"), subs, false) := by
      simp [confirm_subscription, hyc, hv, hm]
    rw [h1]
    dsimp only
    rw [h1]
    dsimp only
    have hpos := List.count_pos_iff.mpr hm
    exact ⟨by omega, rfl⟩
  · have hzero : (lookupD subs (pyNorm city) []).count (pyNorm email) = 0 :=
      List.count_eq_zero.mpr hm
    by_cases hk : hasKey subs (pyNorm city) = true
    · have h1 : confirm_subscription secret email city
          (generate_token secret (pyNorm email) (pyNorm city) "confirm")
          subs =
          ((true,
            "You\x27re subscribed! You\x27ll only hear from us when prices hit bottom."),
           setKey subs (pyNorm city)
             (lookupD subs (pyNorm city) [] ++ [pyNorm email]), true) := by
        simp [confirm_subscription, hyc, hv, hm, hk]
      have hlook : lookupD (setKey subs (pyNorm city)
            (lookupD subs (pyNorm city) [] ++ [pyNorm email]))
          (pyNorm city) [] =
          lookupD subs (pyNorm city) [] ++ [pyNorm email] :=
        lookupD_setKey_self _ _ _ _
      have hmem2 : pyNorm email ∈ lookupD (setKey subs (pyNorm city)
            (lookupD subs (pyNorm city) [] ++ [pyNorm email]))
          (pyNorm city) [] := by
        rw [hlook]
        simp
      have h2 : confirm_subscription secret email city
          (generate_token secret (pyNorm email) (pyNorm city) "confirm")
          (setKey subs (pyNorm city)
            (lookupD subs (pyNorm city) [] ++ [pyNorm email])) =
          ((true, "You\x27re already subscribed"),
           setKey subs (pyNorm city)
             (lookupD subs (pyNorm city) [] ++ [pyNorm email]), false) := by
        simp [confirm_subscription, hyc, hv, hmem2]
      rw [h1]
      dsimp only
      rw [h2]
      dsimp only
      rw [hlook]
      refine ⟨?_, rfl⟩
      rw [List.count_append, hzero]
      simp
    · have hkf : hasKey subs (pyNorm city) = false := by simpa using hk
      have hempty2 : lookupD (setKey subs (pyNorm city) ([] : List String))
          (pyNorm city) [] = ([] : List String) :=
        lookupD_setKey_self _ _ _ _
      have h1 : confirm_subscription secret email city
          (generate_token secret (pyNorm email) (pyNorm city) "confirm")
          subs =
          ((true,
            "You\x27re subscribed! You\x27ll only hear from us when prices hit bottom."),
           setKey (setKey subs (pyNorm city) ([] : List String)) (pyNorm city)
             ([pyNorm email]), true) := by
        simp [confirm_subscription, hyc, hv, hm, hkf, hempty2]
      have hlook : lookupD (setKey (setKey subs (pyNorm city)
            ([] : List String)) (pyNorm city) [pyNorm email])
          (pyNorm city) [] = [pyNorm email] :=
        lookupD_setKey_self _ _ _ _
      have hmem2 : pyNorm email ∈ lookupD (setKey (setKey subs (pyNorm city)
            ([] : List String)) (pyNorm city) [pyNorm email])
          (pyNorm city) [] := by
        rw [hlook]
        simp
      have h2 : confirm_subscription secret email city
          (generate_token secret (pyNorm email) (pyNorm city) "confirm")
          (setKey (setKey subs (pyNorm city) ([] : List String))
            (pyNorm city) [pyNorm email]) =
          ((true, "You\x27re already subscribed"),
           setKey (setKey subs (pyNorm city) ([] : List String))
             (pyNorm city) [pyNorm email], false) := by
        simp [confirm_subscription, hyc, hv, hmem2]
      rw [h1]
      dsimp only
      rw [h2]
      dsimp only
      rw [hlook]
      refine ⟨?_, rfl⟩
      simp

/-- C7 witness: confirming "User@Example.com " (note the space and the
capitals) twice for sydney starting from an empty sydney list. -/
theorem confirm_twice_idempotent_witness :
    (lookupD (confirm_subscription defaultSecret "User@Example.com "
          "sydney"
          (generate_token defaultSecret (pyNorm "User@Example.com ")
            (pyNorm "sydney") "confirm")
          (confirm_subscription defaultSecret "User@Example.com " "sydney"
            (generate_token defaultSecret (pyNorm "User@Example.com ")
              (pyNorm "sydney") "confirm")
            [("sydney", [])]).2.1).2.1
        (pyNorm "sydney") []).count (pyNorm "User@Example.com ") = 1 ∧
    (confirm_subscription defaultSecret "User@Example.com " "sydney"
        (generate_token defaultSecret (pyNorm "User@Example.com ")
          (pyNorm "sydney") "confirm")
        (confirm_subscription defaultSecret "User@Example.com " "sydney"
          (generate_token defaultSecret (pyNorm "User@Example.com ")
            (pyNorm "sydney") "confirm")
          [("sydney", [])]).2.1).1 = (true, "You\x27re already subscribed") :=
  confirm_twice_idempotent defaultSecret "User@Example.com " "sydney"
    [("sydney", [])] (by decide) (by decide)

/-- C8: with a known city and a valid unsubscribe token, removing an
address that is not subscribed succeeds with "not subscribed", leaves
the registry unchanged and performs no save. -/
theorem unsubscribe_absent_noop (secret email city : String)
    (subs : Registry) (hc : CITIES.contains (pyNorm city) = true)
    (hm : (lookupD subs (pyNorm city) []).contains (pyNorm email) = false) :
    unsubscribe secret email city
      (generate_token secret (pyNorm email) (pyNorm city) "unsubscribe")
      subs = ((true, "You weren\x27t subscribed"), subs, false) := by
  have hv := verify_token_roundtrip secret (pyNorm email) (pyNorm city)
    "unsubscribe"
  have hyc : pyNorm city ∈ CITIES := by simpa using hc
  have hnm : pyNorm email ∉ lookupD subs (pyNorm city) [] := by
    simpa using hm
  simp [unsubscribe, hyc, hv, hnm]

/-- C8 witness: unsubscribing an absent address from sydney. -/
theorem unsubscribe_absent_noop_witness :
    unsubscribe defaultSecret "nobody@example.com" "sydney"
      (generate_token defaultSecret (pyNorm "nobody@example.com")
        (pyNorm "sydney") "unsubscribe") [("sydney", ["x@y.co"])] =
    ((true, "You weren\x27t subscribed"), [("sydney", ["x@y.co"])], false) :=
  unsubscribe_absent_noop defaultSecret "nobody@example.com" "sydney"
    [("sydney", ["x@y.co"])] (by decide) (by decide)

/-- C9: starting from a registry of lower-cased trimmed addresses, the
registry stays that way after `confirm_subscription` and after
`unsubscribe`, and `process_signup` issues its confirm token on the
normalized email. -/
theorem registry_normalization_invariant (secret : String)
    (sendOk : String → String → Bool) (email city token : String)
    (subs : Registry) (h : registryNormalized subs = true) :
    registryNormalized
      (confirm_subscription secret email city token subs).2.1 = true ∧
    registryNormalized (unsubscribe secret email city token subs).2.1 =
      true ∧
    Option.all (fun ect : String × String × String =>
        normChk ect.1 &&
        (ect.2.2 == generate_token secret ect.1 ect.2.1 "confirm"))
      (process_signup secret sendOk email city subs).2 = true := by
  refine ⟨?_, ?_, ?_⟩
  · simp only [confirm_subscription]
    split
    · exact h
    · split
      · exact h
      · split
        · exact h
        · by_cases hk : hasKey subs (pyNorm city) = true
          · rw [if_pos hk]
            apply registryNormalized_setKey h
            rw [List.all_append, Bool.and_eq_true]
            exact ⟨registryNormalized_lookupD h, by simp [normChk_pyNorm]⟩
          · rw [if_neg hk]
            have hs : registryNormalized
                (setKey subs (pyNorm city) []) = true :=
              registryNormalized_setKey h rfl
            apply registryNormalized_setKey hs
            rw [List.all_append, Bool.and_eq_true]
            exact ⟨registryNormalized_lookupD hs, by simp [normChk_pyNorm]⟩
  · simp only [unsubscribe]
    split
    · exact h
    · split
      · exact h
      · split
        · exact registryNormalized_setKey h
            (all_erase (registryNormalized_lookupD h))
        · exact h
  · simp only [process_signup]
    split
    · rfl
    · split
      · rfl
      · split
        · rfl
        · split
          · simp [Option.all, normChk_pyNorm]
          · simp [Option.all, normChk_pyNorm]

/-- C9 witness: one concrete normalized registry. -/
theorem registry_normalization_invariant_witness :
    registryNormalized (confirm_subscription defaultSecret "A@B.co" "sydney"
        "tok" [("sydney", ["a@b.co"])]).2.1 = true ∧
    registryNormalized (unsubscribe defaultSecret "A@B.co" "sydney" "tok"
        [("sydney", ["a@b.co"])]).2.1 = true ∧
    Option.all (fun ect : String × String × String =>
        normChk ect.1 &&
        (ect.2.2 == generate_token defaultSecret ect.1 ect.2.1 "confirm"))
      (process_signup defaultSecret (fun _ _ => true) "A@B.co" "sydney"
        [("sydney", ["a@b.co"])]).2 = true :=
  registry_normalization_invariant defaultSecret (fun _ _ => true) "A@B.co"
    "sydney" "tok" [("sydney", ["a@b.co"])] (by decide)

set_option maxRecDepth 1000000 in
/-- Action-scoping holds on a concrete instance: the confirm token of
("user@example.com", "sydney") under the default secret does not verify
for the unsubscribe action.  (The universally quantified action-scoping
statement of spec section 4.5 is equivalent to the absence of truncated
SHA-256 collisions between the paired data strings and is not settled
here.) -/
theorem verify_token_action_scoping_instance :
    verify_token defaultSecret "user@example.com" "sydney"
      (generate_token defaultSecret "user@example.com" "sydney" "confirm")
      "unsubscribe" = false := by decide

end FillYaTank
